import Mathlib

/-!
Shallow embedding of the GraphQL book/author catalog backend (`src/index.js`)
and proofs about its resolver layer.

The document store (three collections of `Author`, `Book` and `User` records)
is embedded as lists of records plus a fresh-identity counter modelling the
client-side generation of unique document identities.  The Mongoose operations
used by the resolvers (`findOne` by exact field value, `find` with an
author-equality and genre-membership query, `countDocuments`, `findById`,
`save`, `populate("author")`) are embedded as list operations.  The external
credential collaborators (bcrypt hashing/comparison, token signing and
verification) are embedded as abstract but executable models.
-/

namespace GraphQLLibrary

/-- An `Author` document: `name`, optional `born`, and identity `_id`. -/
structure Author where
  _id : Nat
  name : String
  born : Option Int
deriving Repr, DecidableEq

/-- A `Book` document: `title`, `published`, a foreign reference `author`
(an Author `_id`), `genres`, and identity `_id`. -/
structure Book where
  _id : Nat
  title : String
  published : Int
  author : Nat
  genres : List String
deriving Repr, DecidableEq

/-- A `User` document: `username`, `favoriteGenre`, `passwordHash`, identity `_id`. -/
structure User where
  _id : Nat
  username : String
  favoriteGenre : String
  passwordHash : String
deriving Repr, DecidableEq

/-- The document database: the three collections, plus the supply of the next
fresh document identity (modelling globally unique generated ObjectIds). -/
structure DB where
  authors : List Author
  books : List Book
  users : List User
  nextId : Nat
deriving Repr, DecidableEq

/-- Mongoose `Author.findOne({ name })`: first stored author with that exact name. -/
def Author.findOne (authors : List Author) (name : String) : Option Author :=
  authors.find? (fun a => a.name == name)

/-- Mongoose `User.findOne({ username })`: first stored user with that exact username. -/
def User.findOne (users : List User) (username : String) : Option User :=
  users.find? (fun u => u.username == username)

/-- Mongoose `User.findById(id)`. -/
def User.findById (users : List User) (id : Nat) : Option User :=
  users.find? (fun u => u._id == id)

/-- The query object built by the `allBooks` resolver: an optional
`author: <id>` equality condition and an optional `genres: { $in: [g] }`
membership condition. -/
structure BookQuery where
  author : Option Nat
  genres : Option String
deriving Repr, DecidableEq

/-- Whether a book matches a `BookQuery`: author-reference equality AND
genre-list membership, each skipped when the condition is absent. -/
def matchesQuery (q : BookQuery) (b : Book) : Bool :=
  (match q.author with
   | some aid => b.author == aid
   | none => true)
  && (match q.genres with
      | some g => b.genres.contains g
      | none => true)

/-- Mongoose `Book.find(query)` for the queries built by `allBooks`. -/
def Book.find (books : List Book) (q : BookQuery) : List Book :=
  books.filter (matchesQuery q)

/-- Mongoose `Book.countDocuments({ author: authorId })`. -/
def Book.countDocuments (books : List Book) (authorId : Nat) : Nat :=
  (books.filter (fun b => b.author == authorId)).length

/-- A book with its `author` reference resolved by `populate("author")`:
the referenced Author document, or none when the reference is dangling. -/
structure PopulatedBook where
  _id : Nat
  title : String
  published : Int
  author : Option Author
  genres : List String
deriving Repr, DecidableEq

/-- Mongoose `populate("author")`: resolve the foreign reference against the
Author collection. -/
def populate (authors : List Author) (b : Book) : PopulatedBook :=
  { _id := b._id, title := b.title, published := b.published,
    author := authors.find? (fun a => a._id == b.author), genres := b.genres }

/-- JavaScript truthiness of an optional string argument, as tested by
`if (args.author)` / `if (args.genre)`: null/undefined and the empty string
are falsy, every other string is truthy. -/
def truthy : Option String → Bool
  | none => false
  | some s => !s.isEmpty

/-- The `allBooks(author, genre)` query resolver (src/index.js lines 89-103):
start from an empty query; if `args.author` is truthy, look the author up by
exact name and, only when found, add the author-id condition; if `args.genre`
is truthy add the genre-membership condition; return the matching books with
their author references resolved. -/
def allBooks (db : DB) (authorArg genreArg : Option String) : List PopulatedBook :=
  let queryAuthor : Option Nat :=
    if truthy authorArg then
      match Author.findOne db.authors (authorArg.getD "") with
      | some author => some author._id
      | none => none
    else none
  let queryGenres : Option String :=
    if truthy genreArg then genreArg else none
  (Book.find db.books { author := queryAuthor, genres := queryGenres }).map
    (populate db.authors)

/-- Machine-checkable error codes carried in `GraphQLError` extensions. -/
inductive ErrCode where
  | UNAUTHENTICATED
  | NOT_FOUND
  | BAD_USER_INPUT
deriving Repr, DecidableEq

/-- A `GraphQLError` thrown by a resolver: message plus extensions code. -/
structure GQLError where
  message : String
  code : ErrCode
deriving Repr, DecidableEq

/-- The per-request context object built by the context function: the
current user attached to the request, when any. -/
structure Context where
  currentUser : Option User
deriving Repr, DecidableEq

/-- Model of the bcrypt collaborator: `bcrypt.hash(s, 10)`.  Abstract but
injective, so that `bcryptCompare p (bcryptHash q)` holds exactly when `p = q`. -/
def bcryptHash (s : String) : String :=
  "bcrypt-10$" ++ s

/-- Model of `bcrypt.compare(password, hash)`. -/
def bcryptCompare (password hash : String) : Bool :=
  bcryptHash password == hash

/-- The payload the server signs into a token: `{ id: user._id, username }`. -/
structure TokenPayload where
  id : Nat
  username : String
deriving Repr, DecidableEq

/-- Model of the token collaborator: a signed token is its payload together
with the secret it was signed with; verification recovers the payload exactly
when the secrets agree. -/
structure SignedToken where
  payload : TokenPayload
  secret : String
deriving Repr, DecidableEq

/-- Model of `jwt.sign(payload, secret)`. -/
def jwtSign (payload : TokenPayload) (secret : String) : SignedToken :=
  { payload := payload, secret := secret }

/-- Model of `jwt.verify(token, secret)`: the payload on a matching secret,
none when verification throws (invalid signature). -/
def jwtVerify (token : SignedToken) (secret : String) : Option TokenPayload :=
  if token.secret == secret then some token.payload else none

/-- The `Token` object returned by `login`: the signed credential and the
user's favorite genre. -/
structure Token where
  value : SignedToken
  favoriteGenre : String
deriving Repr, DecidableEq

/-- Outcome of an `addBook` call: the resolver's returned value or thrown
error, the database afterwards, and the list of events published to the
`BOOK_ADDED` topic during the call. -/
structure AddBookOut where
  result : Except GQLError PopulatedBook
  db : DB
  published : List PopulatedBook
deriving Repr

/-- The `addBook` mutation resolver (src/index.js lines 110-138): throw
UNAUTHENTICATED when no current user is attached; look the author up by exact
name and create-and-save one (name only, `born` unset) when absent; save a new
Book referencing the author's `_id`; resolve the new book's author reference;
publish the populated book to the `BOOK_ADDED` topic; return it. -/
def addBook (db : DB) (context : Context) (title authorName : String)
    (published : Int) (genres : List String) : AddBookOut :=
  match context.currentUser with
  | none =>
    { result := .error { message := "No autorizado", code := .UNAUTHENTICATED },
      db := db, published := [] }
  | some _ =>
    let found := Author.findOne db.authors authorName
    let author : Author :=
      match found with
      | some a => a
      | none => { _id := db.nextId, name := authorName, born := none }
    let db1 : DB :=
      match found with
      | some _ => db
      | none => { db with authors := db.authors ++ [author], nextId := db.nextId + 1 }
    let newBook : Book :=
      { _id := db1.nextId, title := title, published := published,
        author := author._id, genres := genres }
    let db2 : DB := { db1 with books := db1.books ++ [newBook], nextId := db1.nextId + 1 }
    let populatedBook := populate db2.authors newBook
    { result := .ok populatedBook, db := db2, published := [populatedBook] }

/-- The `editAuthor` mutation resolver (src/index.js lines 140-157): throw
UNAUTHENTICATED when no current user is attached; look the author up by exact
name and throw NOT_FOUND when absent; otherwise overwrite `born` with
`setBornTo` unconditionally and save (update in place by identity). -/
def editAuthor (db : DB) (context : Context) (name : String) (setBornTo : Int) :
    Except GQLError Author × DB :=
  match context.currentUser with
  | none =>
    (.error { message := "No autorizado", code := .UNAUTHENTICATED }, db)
  | some _ =>
    match Author.findOne db.authors name with
    | none =>
      (.error { message := "El autor no existe", code := .NOT_FOUND }, db)
    | some author =>
      let updated : Author := { author with born := some setBornTo }
      (.ok updated,
       { db with authors :=
          db.authors.map (fun a => if a._id == author._id then updated else a) })

/-- The `createUser` mutation resolver (src/index.js lines 159-185): reject a
taken username with BAD_USER_INPUT; otherwise hash the FIXED STRING
`"defaultpassword"` — not the caller-supplied `password` argument, which the
code never reads — and save a new User with that hash. -/
def createUser (db : DB) (username favoriteGenre password : String) :
    Except GQLError User × DB :=
  match User.findOne db.users username with
  | some _ =>
    (.error { message := "El nombre de usuario ya está en uso", code := .BAD_USER_INPUT }, db)
  | none =>
    let _unusedSuppliedPassword := password
    let passwordHash := bcryptHash "defaultpassword"
    let newUser : User :=
      { _id := db.nextId, username := username,
        favoriteGenre := favoriteGenre, passwordHash := passwordHash }
    (.ok newUser, { db with users := db.users ++ [newUser], nextId := db.nextId + 1 })

/-- The `login` mutation resolver (src/index.js lines 187-205): look the user
up by username (BAD_USER_INPUT when absent); compare the supplied password
against the stored hash (BAD_USER_INPUT when it does not match); on success
sign `{ id, username }` and return the token with the user's favorite genre. -/
def login (db : DB) (secret : String) (username password : String) :
    Except GQLError Token :=
  match User.findOne db.users username with
  | none =>
    .error { message := "Usuario no encontrado", code := .BAD_USER_INPUT }
  | some user =>
    if bcryptCompare password user.passwordHash then
      .ok { value := jwtSign { id := user._id, username := user.username } secret,
            favoriteGenre := user.favoriteGenre }
    else
      .error { message := "Contraseña incorrecta", code := .BAD_USER_INPUT }

/-- The authorization header of a request, as the context function
case-analyzes it (src/index.js lines 235-236): absent
(`req.headers.authorization` null/undefined); present but failing the
case-insensitive `startsWith("bearer ")` check; or a well-formed
`Bearer <token>` header, whose `substring(7)` is the token. -/
inductive AuthHeader where
  | absent
  | nonBearer (raw : String)
  | bearer (token : SignedToken)
deriving Repr, DecidableEq

/-- The per-request context function (src/index.js lines 234-247).  On a
well-formed bearer header whose token verifies, it returns the object
`{ currentUser }` with the user looked up by the token's id (null when
unknown).  On a missing or non-bearer header, and on failed verification
(caught and logged), IT RETURNS null — the bare JavaScript null, not an
object — embedded here as `none`. -/
def contextFn (users : List User) (secret : String) (auth : AuthHeader) :
    Option Context :=
  match auth with
  | .bearer token =>
    match jwtVerify token secret with
    | some decodedToken => some { currentUser := User.findById users decodedToken.id }
    | none => none
  | .nonBearer _ => none
  | .absent => none

/-- Result of running a resolver body under JavaScript evaluation: a value,
or a thrown TypeError (here: reading a property of null). -/
inductive JSResult (α : Type) where
  | ok (value : α)
  | typeError (message : String)
deriving Repr, DecidableEq

/-- The `me` query resolver (src/index.js lines 105-107) applied to the
context value the context function produced for the request: it evaluates
`context.currentUser`, which in JavaScript throws a TypeError when the
context value is null. -/
def me (context : Option Context) : JSResult (Option User) :=
  match context with
  | some c => .ok c.currentUser
  | none => .typeError "Cannot read properties of null (reading currentUser)"

/-- The full `me` pipeline on one request: derive the context from the
authorization header, then run the `me` resolver on it. -/
def meRequest (users : List User) (secret : String) (auth : AuthHeader) :
    JSResult (Option User) :=
  me (contextFn users secret auth)

/-- The `Author.bookCount` field resolver (src/index.js lines 212-214):
`Book.countDocuments({ author: root._id })`, recomputed from the current Book
collection on each query. -/
def Author.bookCount (books : List Book) (root : Author) : Nat :=
  Book.countDocuments books root._id

/-- Modelled from the spec: the Author persistence model (`models/Author.js`,
required by src/index.js but not part of src/) declares `name` as required and
unique, so a stored author collection has nonempty, pairwise-distinct names. -/
def validAuthors (authors : List Author) : Prop :=
  (∀ a ∈ authors, a.name ≠ "") ∧ authors.Pairwise (fun x y => x.name ≠ y.name)

instance (authors : List Author) : Decidable (validAuthors authors) := by
  unfold validAuthors
  exact inferInstance

/-- A concrete sample database used by counterexamples and witnesses:
one author named "X" and one book by that author in genre "fantasy". -/
def sampleDB : DB :=
  { authors := [{ _id := 1, name := "X", born := none }],
    books := [{ _id := 2, title := "B", published := 2000, author := 1,
                genres := ["fantasy"] }],
    users := [],
    nextId := 3 }

/-- A concrete sample user. -/
def sampleUser : User :=
  { _id := 7, username := "alice", favoriteGenre := "fantasy",
    passwordHash := bcryptHash "defaultpassword" }

/-- Finding by a fresh identity in an extended author collection hits exactly
the appended author, because every stored identity is below the fresh one. -/
theorem find_id_append_fresh (authors : List Author) (n : Nat) (newA : Author)
    (hfresh : ∀ a ∈ authors, a._id < n) (hid : newA._id = n) :
    (authors ++ [newA]).find? (fun x => x._id == n) = some newA := by
  rw [List.find?_append]
  have h1 : authors.find? (fun x => x._id == n) = none := by
    rw [List.find?_eq_none]
    intro x hx
    simp [Nat.ne_of_lt (hfresh x hx)]
  rw [h1]
  simp [List.find?, hid]

/-- Appending one book changes an author's count by one exactly when the new
book references that author. -/
theorem bookCount_append_single (books : List Book) (b : Book) (a : Author) :
    Author.bookCount (books ++ [b]) a
      = Author.bookCount books a + (if b.author == a._id then 1 else 0) := by
  simp only [Author.bookCount, Book.countDocuments, List.filter_append,
    List.length_append]
  cases h : (b.author == a._id) <;> simp [List.filter, h]

/-- C1 counterexample: in `sampleDB` no author is named "nobody", yet
`allBooks(author: "nobody")` is not the empty list — the resolver drops the
author condition when the name resolves to no Author, so the whole book
collection is returned. -/
theorem allBooks_unknown_author_cx :
    Author.findOne sampleDB.authors "nobody" = none ∧
      allBooks sampleDB (some "nobody") none ≠ [] := by
  decide

/-- C1 (amended): when no Author matches the `author` argument, `allBooks`
omits the author condition from the query, so the call returns the same
result as `allBooks` with the author argument absent (all books, still
subject to any genre filter), and no error is raised. -/
theorem allBooks_unknown_author_drops_filter (db : DB) (authorName : String)
    (genreArg : Option String)
    (h : Author.findOne db.authors authorName = none) :
    allBooks db (some authorName) genreArg = allBooks db none genreArg := by
  simp [allBooks, truthy, h]

/-- Witness for the amended C1 theorem at the concrete store `sampleDB`. -/
theorem allBooks_unknown_author_drops_filter_witness :
    allBooks sampleDB (some "nobody") none = allBooks sampleDB none none :=
  allBooks_unknown_author_drops_filter sampleDB "nobody" none (by decide)

/-- C2: the code bug at a concrete input.  `createUser` stores the hash of
the fixed string "defaultpassword" instead of the supplied password "secret";
consequently `login` with the supplied password fails with BAD_USER_INPUT
while `login` with "defaultpassword" succeeds and returns the signed token
with the user's stored favorite genre. -/
theorem createUser_login_password_bug :
    (createUser sampleDB "alice" "fantasy" "secret").1
        = .ok { _id := 3, username := "alice", favoriteGenre := "fantasy",
                passwordHash := bcryptHash "defaultpassword" } ∧
      login (createUser sampleDB "alice" "fantasy" "secret").2 "s" "alice" "secret"
        = .error { message := "Contraseña incorrecta", code := .BAD_USER_INPUT } ∧
      login (createUser sampleDB "alice" "fantasy" "secret").2 "s" "alice" "defaultpassword"
        = .ok { value := jwtSign { id := 3, username := "alice" } "s",
                favoriteGenre := "fantasy" } :=
  ⟨rfl, rfl, rfl⟩

/-- C3: the code bug at concrete requests.  The context function returns the
bare null (not an object) on a missing header, a non-bearer header, and a
failed signature verification, so the `me` resolver's `context.currentUser`
throws a TypeError on those requests instead of returning null; only the
valid-token paths behave as claimed (known user returned, unknown user
yielding null). -/
theorem me_null_context_bug :
    meRequest [sampleUser] "secret" .absent
        = .typeError "Cannot read properties of null (reading currentUser)" ∧
      meRequest [sampleUser] "secret" (.nonBearer "Basic abc")
        = .typeError "Cannot read properties of null (reading currentUser)" ∧
      meRequest [sampleUser] "secret"
          (.bearer (jwtSign { id := 7, username := "alice" } "wrong"))
        = .typeError "Cannot read properties of null (reading currentUser)" ∧
      meRequest [sampleUser] "secret"
          (.bearer (jwtSign { id := 7, username := "alice" } "secret"))
        = .ok (some sampleUser) ∧
      meRequest [sampleUser] "secret"
          (.bearer (jwtSign { id := 9, username := "bob" } "secret"))
        = .ok none :=
  ⟨rfl, rfl, rfl, rfl, rfl⟩

/-- C7: an `addBook` call with no current user attached to the request
context fails with the UNAUTHENTICATED authorization error raised before any
storage access: the database is unchanged (no Author, no Book created or
modified) and nothing is published, for any argument values. -/
theorem addBook_unauthenticated_spec (db : DB) (context : Context)
    (title authorName : String) (published : Int) (genres : List String)
    (h : context.currentUser = none) :
    (addBook db context title authorName published genres).result
        = .error { message := "No autorizado", code := .UNAUTHENTICATED } ∧
      (addBook db context title authorName published genres).db = db ∧
      (addBook db context title authorName published genres).published = [] := by
  simp [addBook, h]

/-- Witness for the C7 theorem at the concrete store `sampleDB`. -/
theorem addBook_unauthenticated_spec_witness :
    (addBook sampleDB { currentUser := none } "T" "A" 1 ["g"]).result
        = .error { message := "No autorizado", code := .UNAUTHENTICATED } ∧
      (addBook sampleDB { currentUser := none } "T" "A" 1 ["g"]).db = sampleDB ∧
      (addBook sampleDB { currentUser := none } "T" "A" 1 ["g"]).published = [] :=
  addBook_unauthenticated_spec sampleDB { currentUser := none } "T" "A" 1 ["g"] rfl

/-- C10: an empty-string `author` or `genre` argument is falsy in the
resolver's truthiness checks, so that filter is skipped entirely:
`allBooks(author: "")` and `allBooks(genre: "")` return the same result as
the call with that argument omitted. -/
theorem allBooks_empty_string_arg_ignored (db : DB)
    (authorArg genreArg : Option String) :
    allBooks db (some "") genreArg = allBooks db none genreArg ∧
      allBooks db authorArg (some "") = allBooks db authorArg none := by
  have he : "".isEmpty = true := rfl
  constructor <;> simp [allBooks, truthy, he]

/-- C5 counterexample: for the genre string "" (an unrestricted "every genre
string"), `allBooks(genre: "")` does not return the books whose genre list
contains "" — in `sampleDB` the filter is skipped as falsy and the fantasy
book is returned although its genre list does not contain "". -/
theorem allBooks_filters_cx :
    allBooks sampleDB none (some "")
      ≠ (sampleDB.books.filter (fun b => b.genres.contains "")).map
          (populate sampleDB.authors) := by
  decide

/-- C5 (amended): over an author collection satisfying the schema constraints
(nonempty, unique names), for every NONEMPTY genre string G and author name A
naming an existing Author `a`: `allBooks(genre: G)` returns exactly the books
whose genre list contains G; `allBooks(author: A)` returns exactly the books
referencing `a`; given both, the two filters compose as logical AND — each
returned with author references resolved. -/
theorem allBooks_filters_spec (db : DB) (G A : String) (a : Author)
    (hvalid : validAuthors db.authors) (hG : G ≠ "")
    (hA : Author.findOne db.authors A = some a) :
    allBooks db none (some G)
        = (db.books.filter (fun b => b.genres.contains G)).map
            (populate db.authors) ∧
      allBooks db (some A) none
        = (db.books.filter (fun b => b.author == a._id)).map
            (populate db.authors) ∧
      allBooks db (some A) (some G)
        = (db.books.filter (fun b => b.author == a._id && b.genres.contains G)).map
            (populate db.authors) := by
  have hA' : db.authors.find? (fun x => x.name == A) = some a := hA
  have hmem : a ∈ db.authors := List.mem_of_find?_eq_some hA'
  have hp : (a.name == A) = true := by simpa using List.find?_some hA'
  have hname : a.name = A := eq_of_beq hp
  have hAne : A ≠ "" := hname ▸ hvalid.1 a hmem
  have hAe : A.isEmpty = false := by
    cases hh : A.isEmpty
    · rfl
    · exact absurd ((String.isEmpty_iff A).mp hh) hAne
  have hGe : G.isEmpty = false := by
    cases hh : G.isEmpty
    · rfl
    · exact absurd ((String.isEmpty_iff G).mp hh) hG
  refine ⟨?_, ?_, ?_⟩
  all_goals
    simp [allBooks, truthy, hAe, hGe, hA, Book.find]
    refine congrArg _ (List.filter_congr ?_)
    intro b hb
    simp [matchesQuery]

/-- Witness for the amended C5 theorem on `sampleDB` with G "fantasy",
A "X". -/
theorem allBooks_filters_spec_witness :
    allBooks sampleDB none (some "fantasy")
        = (sampleDB.books.filter (fun b => b.genres.contains "fantasy")).map
            (populate sampleDB.authors) ∧
      allBooks sampleDB (some "X") none
        = (sampleDB.books.filter (fun b => b.author == 1)).map
            (populate sampleDB.authors) ∧
      allBooks sampleDB (some "X") (some "fantasy")
        = (sampleDB.books.filter
            (fun b => b.author == 1 && b.genres.contains "fantasy")).map
            (populate sampleDB.authors) :=
  allBooks_filters_spec sampleDB "fantasy" "X" { _id := 1, name := "X", born := none }
    (by decide) (by decide) (by decide)

/-- C4: a successful `addBook` with a fresh-identity supply.  When no Author
with the given name exists, exactly one Author (name only, `born` unset) and
exactly one Book are appended, and the returned book's author reference
resolves to that new Author.  When an Author with the name exists, the author
collection is unchanged and the new Book references that Author's identity. -/
theorem addBook_author_reuse_spec (db : DB) (u : User) (title authorName : String)
    (published : Int) (genres : List String)
    (hfresh : ∀ a ∈ db.authors, a._id < db.nextId) :
    (Author.findOne db.authors authorName = none →
      (addBook db { currentUser := some u } title authorName published genres).db.authors
          = db.authors ++ [{ _id := db.nextId, name := authorName, born := none }] ∧
        (addBook db { currentUser := some u } title authorName published genres).db.books
          = db.books ++ [{ _id := db.nextId + 1, title := title,
                           published := published, author := db.nextId,
                           genres := genres }] ∧
        (addBook db { currentUser := some u } title authorName published genres).result
          = .ok { _id := db.nextId + 1, title := title, published := published,
                  author := some { _id := db.nextId, name := authorName, born := none },
                  genres := genres }) ∧
    ∀ a, Author.findOne db.authors authorName = some a →
      (addBook db { currentUser := some u } title authorName published genres).db.authors
          = db.authors ∧
        (addBook db { currentUser := some u } title authorName published genres).db.books
          = db.books ++ [{ _id := db.nextId, title := title, published := published,
                           author := a._id, genres := genres }] := by
  constructor
  · intro h
    have hfind := find_id_append_fresh db.authors db.nextId
      { _id := db.nextId, name := authorName, born := none } hfresh rfl
    refine ⟨?_, ?_, ?_⟩ <;> simp [addBook, h, populate, hfind]
  · intro a ha
    constructor <;> simp [addBook, ha]

/-- Witness for the C4 theorem: adding "The Hobbit" by the new author
"Tolkien" appends one author; adding a second book by the stored author "X"
appends none. -/
theorem addBook_author_reuse_spec_witness :
    ((addBook sampleDB { currentUser := some sampleUser } "The Hobbit" "Tolkien"
        1937 ["fantasy"]).db.authors
      = sampleDB.authors ++ [{ _id := 3, name := "Tolkien", born := none }]) ∧
      (addBook sampleDB { currentUser := some sampleUser } "B2" "X" 2001
          ["fantasy"]).db.authors
        = sampleDB.authors := by
  constructor
  · exact ((addBook_author_reuse_spec sampleDB sampleUser "The Hobbit" "Tolkien"
      1937 ["fantasy"] (by decide)).1 (by decide)).1
  · exact ((addBook_author_reuse_spec sampleDB sampleUser "B2" "X" 2001
      ["fantasy"] (by decide)).2 { _id := 1, name := "X", born := none } (by decide)).1

/-- C6: an authenticated `editAuthor`.  On an existing name the author's
`born` is overwritten with `setBornTo` (no validation) while its name and
identity, every author with a different identity, the Book collection, the
User collection and the identity supply are unchanged; on a nonexistent name
the call fails with the NOT_FOUND error and the database is unchanged. -/
theorem editAuthor_frame_spec (db : DB) (u : User) (name : String) (setBornTo : Int) :
    (∀ a, Author.findOne db.authors name = some a →
      (editAuthor db { currentUser := some u } name setBornTo).1
          = .ok { a with born := some setBornTo } ∧
        (editAuthor db { currentUser := some u } name setBornTo).2.authors
          = db.authors.map (fun x =>
              if x._id == a._id then { a with born := some setBornTo } else x) ∧
        (editAuthor db { currentUser := some u } name setBornTo).2.books = db.books ∧
        (editAuthor db { currentUser := some u } name setBornTo).2.users = db.users ∧
        (editAuthor db { currentUser := some u } name setBornTo).2.nextId = db.nextId ∧
        ∀ x ∈ db.authors, x._id ≠ a._id →
          x ∈ (editAuthor db { currentUser := some u } name setBornTo).2.authors) ∧
    (Author.findOne db.authors name = none →
      (editAuthor db { currentUser := some u } name setBornTo).1
          = .error { message := "El autor no existe", code := .NOT_FOUND } ∧
        (editAuthor db { currentUser := some u } name setBornTo).2 = db) := by
  constructor
  · intro a ha
    refine ⟨by simp [editAuthor, ha], by simp [editAuthor, ha],
      by simp [editAuthor, ha], by simp [editAuthor, ha],
      by simp [editAuthor, ha], ?_⟩
    intro x hx hne
    simp only [editAuthor, ha]
    exact List.mem_map.mpr ⟨x, hx, by simp [hne]⟩
  · intro h
    constructor <;> simp [editAuthor, h]

/-- Witness for the C6 theorem: editing the stored author "X" sets `born` to
1980; editing the unknown name "nobody" leaves `sampleDB` unchanged. -/
theorem editAuthor_frame_spec_witness :
    ((editAuthor sampleDB { currentUser := some sampleUser } "X" 1980).1
        = .ok { _id := 1, name := "X", born := some 1980 }) ∧
      (editAuthor sampleDB { currentUser := some sampleUser } "nobody" 1980).2
        = sampleDB := by
  constructor
  · exact ((editAuthor_frame_spec sampleDB sampleUser "X" 1980).1
      { _id := 1, name := "X", born := none } (by decide)).1
  · exact ((editAuthor_frame_spec sampleDB sampleUser "nobody" 1980).2 (by decide)).2

/-- C8: `addBook` publishes to the BOOK_ADDED topic exactly when it succeeds.
A successful call publishes exactly one event, namely the returned book,
which is the newly persisted Book with its author reference resolved; a
failed call publishes nothing and leaves the database unchanged. -/
theorem addBook_publish_spec (db : DB) (context : Context)
    (title authorName : String) (published : Int) (genres : List String) :
    (∀ pb, (addBook db context title authorName published genres).result = .ok pb →
      (addBook db context title authorName published genres).published = [pb] ∧
        ∃ b, (addBook db context title authorName published genres).db.books
              = db.books ++ [b] ∧
          pb = populate (addBook db context title authorName published genres).db.authors b) ∧
    ∀ e, (addBook db context title authorName published genres).result = .error e →
      (addBook db context title authorName published genres).published = [] ∧
        (addBook db context title authorName published genres).db = db := by
  cases hcu : context.currentUser with
  | none =>
    constructor
    · intro pb hpb
      simp [addBook, hcu] at hpb
    · intro e he
      simp [addBook, hcu]
  | some u =>
    cases hf : Author.findOne db.authors authorName with
    | none =>
      constructor
      · intro pb hpb
        simp only [addBook, hcu, hf] at hpb
        rw [Except.ok.injEq] at hpb
        subst hpb
        refine ⟨by simp [addBook, hcu, hf],
          { _id := db.nextId + 1, title := title, published := published,
            author := db.nextId, genres := genres },
          by simp [addBook, hcu, hf], by simp [addBook, hcu, hf]⟩
      · intro e he
        simp [addBook, hcu, hf] at he
    | some a =>
      constructor
      · intro pb hpb
        simp only [addBook, hcu, hf] at hpb
        rw [Except.ok.injEq] at hpb
        subst hpb
        refine ⟨by simp [addBook, hcu, hf],
          { _id := db.nextId, title := title, published := published,
            author := a._id, genres := genres },
          by simp [addBook, hcu, hf], by simp [addBook, hcu, hf]⟩
      · intro e he
        simp [addBook, hcu, hf] at he

/-- Witness for the C8 theorem: the unauthenticated call publishes nothing;
the successful call publishes exactly the returned populated book. -/
theorem addBook_publish_spec_witness :
    ((addBook sampleDB { currentUser := none } "T" "A" 1 ["g"]).published = []) ∧
      (addBook sampleDB { currentUser := some sampleUser } "T" "A" 1 ["g"]).published
        = [{ _id := 4, title := "T", published := 1,
             author := some { _id := 3, name := "A", born := none }, genres := ["g"] }] := by
  constructor
  · exact ((addBook_publish_spec sampleDB { currentUser := none } "T" "A" 1 ["g"]).2
      { message := "No autorizado", code := .UNAUTHENTICATED } rfl).1
  · exact ((addBook_publish_spec sampleDB { currentUser := some sampleUser }
      "T" "A" 1 ["g"]).1
      { _id := 4, title := "T", published := 1,
        author := some { _id := 3, name := "A", born := none }, genres := ["g"] } rfl).1

/-- C9: the `Author.bookCount` field resolver computes, from the current Book
collection, the number of Book records whose author reference is the given
Author's identity; and every successful `addBook` is immediately reflected:
it raises the count of the referenced author by exactly one and changes no
other author's count. -/
theorem bookCount_reflects_addBook :
    (∀ (books : List Book) (a : Author),
        Author.bookCount books a = books.countP (fun b => b.author == a._id)) ∧
      ∀ (db : DB) (u : User) (title authorName : String) (published : Int)
        (genres : List String),
        ∃ b, (addBook db { currentUser := some u } title authorName published
                genres).db.books
              = db.books ++ [b] ∧
          (∀ a : Author, a._id = b.author →
            Author.bookCount (addBook db { currentUser := some u } title authorName
                published genres).db.books a
              = Author.bookCount db.books a + 1) ∧
          ∀ a : Author, a._id ≠ b.author →
            Author.bookCount (addBook db { currentUser := some u } title authorName
                published genres).db.books a
              = Author.bookCount db.books a := by
  constructor
  · intro books a
    rw [List.countP_eq_length_filter]
    rfl
  · intro db u title authorName published genres
    cases hf : Author.findOne db.authors authorName with
    | none =>
      refine ⟨{ _id := db.nextId + 1, title := title, published := published,
                author := db.nextId, genres := genres },
        by simp [addBook, hf], ?_, ?_⟩
      · intro a ha
        have hbooks : (addBook db { currentUser := some u } title authorName
            published genres).db.books
              = db.books
                ++ [{ _id := db.nextId + 1, title := title,
                      published := published, author := db.nextId,
                      genres := genres }] := by
          simp [addBook, hf]
        rw [hbooks, bookCount_append_single]
        simp [ha]
      · intro a ha
        have hbooks : (addBook db { currentUser := some u } title authorName
            published genres).db.books
              = db.books
                ++ [{ _id := db.nextId + 1, title := title,
                      published := published, author := db.nextId,
                      genres := genres }] := by
          simp [addBook, hf]
        rw [hbooks, bookCount_append_single]
        have : (db.nextId == a._id) = false := beq_eq_false_iff_ne.mpr (Ne.symm ha)
        simp [this]
    | some a0 =>
      refine ⟨{ _id := db.nextId, title := title, published := published,
                author := a0._id, genres := genres },
        by simp [addBook, hf], ?_, ?_⟩
      · intro a ha
        have hbooks : (addBook db { currentUser := some u } title authorName
            published genres).db.books
              = db.books
                ++ [{ _id := db.nextId, title := title,
                      published := published, author := a0._id,
                      genres := genres }] := by
          simp [addBook, hf]
        rw [hbooks, bookCount_append_single]
        simp [ha]
      · intro a ha
        have hbooks : (addBook db { currentUser := some u } title authorName
            published genres).db.books
              = db.books
                ++ [{ _id := db.nextId, title := title,
                      published := published, author := a0._id,
                      genres := genres }] := by
          simp [addBook, hf]
        rw [hbooks, bookCount_append_single]
        have : (a0._id == a._id) = false := beq_eq_false_iff_ne.mpr (Ne.symm ha)
        simp [this]

/-- Witness for the C9 theorem: the stored author "X" has its count raised by
one by a successful `addBook` of a second book by "X". -/
theorem bookCount_reflects_addBook_witness :
    Author.bookCount
        (addBook sampleDB { currentUser := some sampleUser } "B2" "X" 2001
          ["f"]).db.books
        { _id := 1, name := "X", born := none }
      = Author.bookCount sampleDB.books { _id := 1, name := "X", born := none } + 1 := by
  obtain ⟨b, hb, h1, h2⟩ :=
    bookCount_reflects_addBook.2 sampleDB sampleUser "B2" "X" 2001 ["f"]
  have hb2 : sampleDB.books
      ++ [{ _id := 3, title := "B2", published := 2001, author := 1, genres := ["f"] }]
        = sampleDB.books ++ [b] := by
    rw [← hb]
    rfl
  have hbeq : b = { _id := 3, title := "B2", published := 2001, author := 1,
                    genres := ["f"] } := by
    have h3 := List.append_cancel_left hb2
    simp at h3
    exact h3.symm
  exact h1 { _id := 1, name := "X", born := none } (by simp [hbeq])

end GraphQLLibrary
